import Mathlib

/-!
Verification development for the Civitas AI ticket dispatcher
(`backend/src/services/dispatcher_agent.py`).

The dispatcher drives a tool-augmented model conversation to convergence:
it validates the ticket input, loops calling the model (capped at 20
iterations), executes tool calls against the database session, parses the
final model text as JSON with regex fallbacks, validates the presence of
the seven output fields, writes an audit log, and returns the decision.

Strings are modelled as `List Char`.  Python's `json.loads` is modelled by
an executable recursive-descent parser (`json_loads`); JSON numeric
literals are modelled as integers (the dispatcher's decision payloads
carry no fractional numbers).  The two regular expressions of the
fallback parser are modelled by direct executable matchers that implement
Python `re.search` semantics (leftmost start, lazy/greedy preference) for
those two concrete patterns.  External effects (the Anthropic model, the
three router functions, the SQLAlchemy session) are oracle parameters.
-/

set_option maxRecDepth 100000

namespace Civitas

abbrev Str := List Char

/-- The left-brace character, kept out of string literals. -/
def lbrace : Char := Char.ofNat 123

/-- The right-brace character. -/
def rbrace : Char := Char.ofNat 125

/-- The backtick character. -/
def btick : Char := Char.ofNat 96

/-- Python regex `\s` whitespace class (ASCII part), also used by
`str.strip`-style skipping in the JSON parser. -/
def isWs (c : Char) : Bool :=
  c = ' ' || c = '\t' || c = '\n' || c = '\x0d' || c = '\x0c' || c = '\x0b'

/-- ASCII decimal digit test. -/
def isDigit (c : Char) : Bool := 48 ≤ c.toNat && c.toNat ≤ 57

/-- Does `s` start with `p`? -/
def strStartsWith : Str → Str → Bool
  | _, [] => true
  | [], _ :: _ => false
  | c :: cs, p :: ps => c = p && strStartsWith cs ps

/-- Does `pat` occur as a contiguous substring of `s`? -/
def strContains : Str → Str → Bool
  | [], pat => strStartsWith [] pat
  | c :: cs, pat => strStartsWith (c :: cs) pat || strContains cs pat

/-- Decimal digits to a natural number. -/
def digitsToNat (ds : Str) : Nat :=
  ds.foldl (fun acc c => acc * 10 + (c.toNat - 48)) 0

/-- JSON values, as produced by Python's `json.loads` (numbers modelled as
integers; object members kept in parse order). -/
inductive Json where
  | null
  | bool (b : Bool)
  | num (n : Int)
  | str (s : Str)
  | arr (elems : List Json)
  | obj (members : List (Str × Json))

/-- Hexadecimal digit value, for `\uXXXX` string escapes. -/
def hexVal? (c : Char) : Option Nat :=
  if 48 ≤ c.toNat && c.toNat ≤ 57 then some (c.toNat - 48)
  else if 97 ≤ c.toNat && c.toNat ≤ 102 then some (c.toNat - 87)
  else if 65 ≤ c.toNat && c.toNat ≤ 70 then some (c.toNat - 55)
  else none

/-- Body of a JSON string literal after the opening quote: returns the
decoded characters and the remainder after the closing quote.  Unknown
escapes and raw control characters are rejected, as in strict
`json.loads`. -/
def parseStringBody : Nat → Str → Option (Str × Str)
  | 0, _ => none
  | _ + 1, [] => none
  | fuel + 1, c :: rest =>
    if c = '\"' then some ([], rest)
    else if c = '\\' then
      match rest with
      | [] => none
      | e :: rest2 =>
        if e = '\"' then (parseStringBody fuel rest2).map (fun p => ('\"' :: p.1, p.2))
        else if e = '\\' then (parseStringBody fuel rest2).map (fun p => ('\\' :: p.1, p.2))
        else if e = '/' then (parseStringBody fuel rest2).map (fun p => ('/' :: p.1, p.2))
        else if e = 'b' then (parseStringBody fuel rest2).map (fun p => ('\x08' :: p.1, p.2))
        else if e = 'f' then (parseStringBody fuel rest2).map (fun p => ('\x0c' :: p.1, p.2))
        else if e = 'n' then (parseStringBody fuel rest2).map (fun p => ('\n' :: p.1, p.2))
        else if e = 'r' then (parseStringBody fuel rest2).map (fun p => ('\x0d' :: p.1, p.2))
        else if e = 't' then (parseStringBody fuel rest2).map (fun p => ('\t' :: p.1, p.2))
        else if e = 'u' then
          match rest2 with
          | h1 :: h2 :: h3 :: h4 :: rest3 =>
            match hexVal? h1, hexVal? h2, hexVal? h3, hexVal? h4 with
            | some a, some b, some cth, some d =>
              (parseStringBody fuel rest3).map
                (fun p => (Char.ofNat (((a * 16 + b) * 16 + cth) * 16 + d) :: p.1, p.2))
            | _, _, _, _ => none
          | _ => none
        else none
    else if c.toNat < 32 then none
    else (parseStringBody fuel rest).map (fun p => (c :: p.1, p.2))

/-- After an integer literal, the next character must not extend it into a
fractional or exponent form (which this model does not represent). -/
def numTermOk : Str → Bool
  | [] => true
  | c :: _ => !(c = '.' || c = 'e' || c = 'E')

mutual

/-- One JSON value, leading whitespace allowed; returns the value and the
unconsumed remainder.  Models the grammar accepted by `json.loads`. -/
def parseValue : Nat → Str → Option (Json × Str)
  | 0, _ => none
  | fuel + 1, s =>
    match s.dropWhile isWs with
    | [] => none
    | c :: rest =>
      if c = lbrace then
        match rest.dropWhile isWs with
        | c2 :: rest2 =>
          if c2 = rbrace then some (Json.obj [], rest2)
          else parseMembers fuel (rest.dropWhile isWs) []
        | [] => none
      else if c = '[' then
        match rest.dropWhile isWs with
        | c2 :: rest2 =>
          if c2 = ']' then some (Json.arr [], rest2)
          else parseElems fuel rest []
        | [] => none
      else if c = '\"' then
        (parseStringBody (fuel + 1) rest).map (fun p => (Json.str p.1, p.2))
      else if c = 't' then
        if strStartsWith rest "rue".data then some (Json.bool true, rest.drop 3) else none
      else if c = 'f' then
        if strStartsWith rest "alse".data then some (Json.bool false, rest.drop 4) else none
      else if c = 'n' then
        if strStartsWith rest "ull".data then some (Json.null, rest.drop 3) else none
      else if c = '-' then
        match rest.takeWhile isDigit with
        | [] => none
        | ds =>
          let r := rest.dropWhile isDigit
          if numTermOk r then some (Json.num (-(digitsToNat ds : Int)), r) else none
      else if isDigit c then
        let ds := (c :: rest).takeWhile isDigit
        let r := (c :: rest).dropWhile isDigit
        if numTermOk r then some (Json.num (digitsToNat ds : Int), r) else none
      else none

/-- Object members after the opening brace (first member must follow);
`acc` holds already-parsed members in reverse. -/
def parseMembers : Nat → Str → List (Str × Json) → Option (Json × Str)
  | 0, _, _ => none
  | fuel + 1, s, acc =>
    match s with
    | c :: rest =>
      if c = '\"' then
        match parseStringBody (fuel + 1) rest with
        | some (key, r1) =>
          match r1.dropWhile isWs with
          | ':' :: r2 =>
            match parseValue fuel r2 with
            | some (v, r3) =>
              match r3.dropWhile isWs with
              | ',' :: r4 =>
                parseMembers fuel (r4.dropWhile isWs) ((key, v) :: acc)
              | c5 :: r5 =>
                if c5 = rbrace then some (Json.obj ((key, v) :: acc).reverse, r5) else none
              | [] => none
            | none => none
          | _ => none
        | none => none
      else none
    | [] => none

/-- Array elements after the opening bracket (first element must follow);
`acc` holds already-parsed elements in reverse. -/
def parseElems : Nat → Str → List Json → Option (Json × Str)
  | 0, _, _ => none
  | fuel + 1, s, acc =>
    match parseValue fuel s with
    | some (v, r1) =>
      match r1.dropWhile isWs with
      | ',' :: r2 => parseElems fuel r2 (v :: acc)
      | ']' :: r2 => some (Json.arr ((v :: acc)).reverse, r2)
      | _ => none
    | none => none

end

/-- Model of Python `json.loads`: parse one value and require only
whitespace after it; any failure is a `JSONDecodeError`, modelled as
`none`. -/
def json_loads (s : Str) : Option Json :=
  match parseValue (s.length + 1) s with
  | some (v, rest) => if rest.all isWs then some v else none
  | none => none

/-- After the captured group's closing brace, the pattern requires
`\s*` and then three backticks; `\s` never matches a backtick, so the
greedy `\s*` is equivalent to skipping all whitespace. -/
def startsFence (s : Str) : Bool :=
  strStartsWith (s.dropWhile isWs) [btick, btick, btick]

/-- Lazy scan for `.*?\}` followed by `\s*``` `: the shortest prefix
ending at a closing brace whose remainder passes `startsFence`, returned
with that remainder. -/
def lazyClose : Str → Option (Str × Str)
  | [] => none
  | c :: cs =>
    if c = rbrace && startsFence cs then some ([c], cs)
    else
      match lazyClose cs with
      | some (g, r) => some (c :: g, r)
      | none => none

/-- Continuation of the fenced-block pattern right after an opening
triple backtick: `(?:json)?\s*(\{.*?\})\s*``` `, returning capture
group 1.  When the text starts with `json` the optional group must
consume it (otherwise `\s*\{` immediately fails on `j`), so no
backtracking is needed. -/
def matchAfterTicks (s : Str) : Option Str :=
  let s1 := if strStartsWith s "json".data then s.drop 4 else s
  match s1.dropWhile isWs with
  | c :: rest => if c = lbrace then (lazyClose rest).map (fun p => lbrace :: p.1) else none
  | [] => none

/-- Line 444: `re.search(r'```(?:json)?\s*(\{.*?\})\s*```', final_text,
re.DOTALL)` — the match starting at the leftmost position where the full
pattern succeeds, returning capture group 1. -/
def fencedSearch : Str → Option Str
  | [] => none
  | c :: cs =>
    if strStartsWith (c :: cs) [btick, btick, btick] then
      match matchAfterTicks (cs.drop 2) with
      | some g => some g
      | none => fencedSearch cs
    else fencedSearch cs

/-- Character class `[^{}]`. -/
def nonBrace (c : Char) : Bool := !(c = lbrace || c = rbrace)

/-- Match of `[^{}]*(?:\{[^{}]*\}[^{}]*)*\}` after an opening brace:
returns the matched characters (with the final closing brace) and the
rest.  The greedy runs are forced because the following alternatives all
begin with a brace; a second nesting level makes the whole match fail. -/
def braceTail : Nat → Str → Option (Str × Str)
  | 0, _ => none
  | fuel + 1, s =>
    let run := s.takeWhile nonBrace
    match s.dropWhile nonBrace with
    | c :: r =>
      if c = rbrace then some (run ++ [rbrace], r)
      else
        let run2 := r.takeWhile nonBrace
        match r.dropWhile nonBrace with
        | c2 :: r2 =>
          if c2 = rbrace then
            (braceTail fuel r2).map (fun p => (run ++ lbrace :: run2 ++ rbrace :: p.1, p.2))
          else none
        | [] => none
    | [] => none

/-- Line 452: `re.search(r'\{[^{}]*(?:\{[^{}]*\}[^{}]*)*\}', final_text,
re.DOTALL)` — the match starting at the leftmost opening brace where the
depth-two brace pattern succeeds. -/
def braceSearch : Str → Option Str
  | [] => none
  | c :: cs =>
    if c = lbrace then
      match braceTail (cs.length + 1) cs with
      | some p => some (lbrace :: p.1)
      | none => braceSearch cs
    else braceSearch cs

/-- Lines 435–461: parse the final model text.  Mirrors the Python
control flow, in which `result` is bound only by a successful
`json.loads`, the brace-substring fallback is reached only in the `else`
branch where no fenced block matched at all, and reaching the end with
`result` unbound raises the "did not return valid JSON" error (`none`
here). -/
def parseFinal (final_text : Str) : Option Json :=
  match json_loads final_text with
  | some result => some result
  | none =>
    match fencedSearch final_text with
    | some g =>
      match json_loads g with
      | some result => some result
      | none => none
    | none =>
      match braceSearch final_text with
      | some g =>
        match json_loads g with
        | some result => some result
        | none => none
      | none => none

/-- Modelled from the spec: the ordered fallback in which each of the
three parse attempts is tried whenever the prior step failed to produce
valid JSON (spec "Output Parser" algorithm, steps 1–4). -/
def specOrderedFallback (final_text : Str) : Option Json :=
  match json_loads final_text with
  | some r => some r
  | none =>
    match (fencedSearch final_text).bind json_loads with
    | some r => some r
    | none =>
      match (braceSearch final_text).bind json_loads with
      | some r => some r
      | none => none

/-- The fallback order the code actually implements: a fenced block,
once found, is authoritative — a parse failure of its interior is
terminal, and the brace-substring fallback runs only when no fenced
block matched. -/
def amendedOrderedFallback (final_text : Str) : Option Json :=
  match json_loads final_text with
  | some r => some r
  | none =>
    match fencedSearch final_text with
    | some g => json_loads g
    | none => (braceSearch final_text).bind json_loads

/-- JSON string-literal escaping used by `json.dumps`. -/
def escChar (c : Char) : Str :=
  if c = '\"' then '\\' :: '\"' :: []
  else if c = '\\' then '\\' :: '\\' :: []
  else if c = '\n' then '\\' :: 'n' :: []
  else if c = '\t' then '\\' :: 't' :: []
  else if c = '\x0d' then '\\' :: 'r' :: []
  else if c = '\x08' then '\\' :: 'b' :: []
  else if c = '\x0c' then '\\' :: 'f' :: []
  else [c]

/-- Escape every character of a JSON string body. -/
def escapeString : Str → Str
  | [] => []
  | c :: cs => escChar c ++ escapeString cs

/-- Node budget for the serializers; far above the depth of any value the
dispatcher produces. -/
def dumpFuel : Nat := 4096

mutual

/-- `json.dumps` with its default separators `", "` and `": "`. -/
def dumpsV : Nat → Json → Str
  | 0, _ => []
  | fuel + 1, j =>
    match j with
    | .null => "null".data
    | .bool true => "true".data
    | .bool false => "false".data
    | .num n => (toString n).data
    | .str s => '\"' :: escapeString s ++ ['\"']
    | .arr [] => '[' :: [']']
    | .arr (x :: xs) => '[' :: dumpsV fuel x ++ dumpsList fuel xs ++ [']']
    | .obj [] => lbrace :: [rbrace]
    | .obj ((k, v) :: kvs) =>
      lbrace :: ('\"' :: escapeString k ++ '\"' :: ':' :: ' ' :: dumpsV fuel v)
        ++ dumpsMembers fuel kvs ++ [rbrace]

/-- Remaining array elements, each preceded by `", "`. -/
def dumpsList : Nat → List Json → Str
  | 0, _ => []
  | _ + 1, [] => []
  | fuel + 1, x :: xs => ',' :: ' ' :: dumpsV fuel x ++ dumpsList fuel xs

/-- Remaining object members, each preceded by `", "`. -/
def dumpsMembers : Nat → List (Str × Json) → Str
  | 0, _ => []
  | _ + 1, [] => []
  | fuel + 1, (k, v) :: kvs =>
    ',' :: ' ' :: ('\"' :: escapeString k ++ '\"' :: ':' :: ' ' :: dumpsV fuel v)
      ++ dumpsMembers fuel kvs

end

/-- `json.dumps` of a tool result. -/
def dumps (j : Json) : Str := dumpsV dumpFuel j

mutual

/-- Python `repr` of a `json.loads`-shaped value, used when such a value
is interpolated into an f-string from inside a container. -/
def pyReprV : Nat → Json → Str
  | 0, _ => []
  | fuel + 1, j =>
    match j with
    | .null => "None".data
    | .bool true => "True".data
    | .bool false => "False".data
    | .num n => (toString n).data
    | .str s => '\'' :: s ++ ['\'']
    | .arr [] => '[' :: [']']
    | .arr (x :: xs) => '[' :: pyReprV fuel x ++ pyReprList fuel xs ++ [']']
    | .obj [] => lbrace :: [rbrace]
    | .obj ((k, v) :: kvs) =>
      lbrace :: ('\'' :: k ++ '\'' :: ':' :: ' ' :: pyReprV fuel v)
        ++ pyReprMembers fuel kvs ++ [rbrace]

/-- Remaining list elements of a `repr`. -/
def pyReprList : Nat → List Json → Str
  | 0, _ => []
  | _ + 1, [] => []
  | fuel + 1, x :: xs => ',' :: ' ' :: pyReprV fuel x ++ pyReprList fuel xs

/-- Remaining dict members of a `repr`. -/
def pyReprMembers : Nat → List (Str × Json) → Str
  | 0, _ => []
  | _ + 1, [] => []
  | fuel + 1, (k, v) :: kvs =>
    ',' :: ' ' :: ('\'' :: k ++ '\'' :: ':' :: ' ' :: pyReprV fuel v)
      ++ pyReprMembers fuel kvs

end

/-- Python `str()` of a value pulled out of a tool-input dict with
`.get` (`None` when the key is absent), as interpolated into the
`Invalid crew_type:` message. -/
def pyStrOfOptJson : Option Json → Str
  | none => "None".data
  | some (.str s) => s
  | some j => pyReprV dumpFuel j

/-- Dict lookup (`d.get(k)`). -/
def dictGet (kvs : List (Str × Json)) (k : Str) : Option Json :=
  (kvs.find? (fun p => p.1 == k)).map (fun p => p.2)

/-- The shared SQLAlchemy session, abstracted to its pending
transactional state. -/
structure DbSession where
  pending : List Str

/-- `session.rollback()`: discard the pending transaction. -/
def DbSession.rollback (_s : DbSession) : DbSession := ⟨[]⟩

/-- A row returned by `routers.labels.get_labels`. -/
structure LabelRow where
  label_id : Str
  label_name : Str
  label_description : Str
  color_hex : Str

/-- A row returned by `routers.users.get_users` (`status` is the enum's
`.value` string). -/
structure UserRow where
  user_id : Str
  firstname : Str
  lastname : Str
  email : Str
  phone_number : Str
  status : Str

/-- A row dict returned by `routers.crews.get_nearest_crews`;
`team_id` is kept post-`str()`, the other values are arbitrary JSON. -/
structure CrewRow where
  team_id : Str
  team_name : Json
  crew_type : Json
  status : Json
  location_coordinates : Json
  distance : Json

/-- `models/civitas.py` lines 35–41: the closed crew-type enum. -/
inductive SupportCrewType where
  | pothole_crew
  | drain_crew
  | tree_crew
  | sign_crew
  | snow_crew
  | sanitation_crew
deriving DecidableEq

/-- `SupportCrewType(x)` constructor semantics: succeeds exactly on the
six member value strings, raises `ValueError` (here `none`) otherwise —
including on `None` and non-string values. -/
def SupportCrewType.ofValue? : Option Json → Option SupportCrewType
  | some (.str s) =>
    if s = "pothole crew".data then some .pothole_crew
    else if s = "drain crew".data then some .drain_crew
    else if s = "tree crew".data then some .tree_crew
    else if s = "sign crew".data then some .sign_crew
    else if s = "snow crew".data then some .snow_crew
    else if s = "sanitation crew".data then some .sanitation_crew
    else none
  | _ => none

/-- The three router functions, as oracles: each receives its arguments
and the session, and returns the (possibly mutated) session together
with either its rows or a raised exception's message. -/
structure ToolEnv where
  router_get_labels : Option Json → DbSession → DbSession × Except Str (List LabelRow)
  router_get_users : Option Json → DbSession → DbSession × Except Str (List UserRow)
  router_get_nearest_crews :
    Option Json → Option Json → SupportCrewType → DbSession → DbSession × Except Str (List CrewRow)

/-- Lines 264–329, `_execute_tool_internal`: dispatch on the tool name,
validate the crew type, call the router and convert rows to JSON.
Unknown tool names and invalid crew types return `{"error": ...}`
payloads instead of raising. -/
def execute_tool_internal (env : ToolEnv) (tool_name : Str)
    (tool_input : List (Str × Json)) (db : DbSession) : DbSession × Except Str Json :=
  if tool_name = "get_labels".data then
    match env.router_get_labels (dictGet tool_input "search".data) db with
    | (db1, .ok labels) =>
      (db1, .ok (Json.arr (labels.map (fun l => Json.obj
        [("label_id".data, .str l.label_id),
         ("label_name".data, .str l.label_name),
         ("label_description".data, .str l.label_description),
         ("color_hex".data, .str l.color_hex)]))))
    | (db1, .error e) => (db1, .error e)
  else if tool_name = "get_users".data then
    match env.router_get_users (dictGet tool_input "search".data) db with
    | (db1, .ok users) =>
      (db1, .ok (Json.arr ((users.filter (fun u => u.status == "active".data)).map
        (fun u => Json.obj
          [("user_id".data, .str u.user_id),
           ("firstname".data, .str u.firstname),
           ("lastname".data, .str u.lastname),
           ("email".data, .str u.email),
           ("phone_number".data, .str u.phone_number),
           ("status".data, .str u.status)]))))
    | (db1, .error e) => (db1, .error e)
  else if tool_name = "get_nearest_crews".data then
    match SupportCrewType.ofValue? (dictGet tool_input "crew_type".data) with
    | none =>
      (db, .ok (Json.obj [("error".data,
        .str ("Invalid crew_type: ".data ++ pyStrOfOptJson (dictGet tool_input "crew_type".data)))]))
    | some ct =>
      match env.router_get_nearest_crews (dictGet tool_input "lat".data)
          (dictGet tool_input "lng".data) ct db with
      | (db1, .ok crews) =>
        (db1, .ok (Json.arr (crews.map (fun c => Json.obj
          [("team_id".data, .str c.team_id),
           ("team_name".data, c.team_name),
           ("crew_type".data, c.crew_type),
           ("status".data, c.status),
           ("location_coordinates".data, c.location_coordinates),
           ("distance".data, c.distance)]))))
      | (db1, .error e) => (db1, .error e)
  else
    (db, .ok (Json.obj [("error".data, .str ("Unknown tool: ".data ++ tool_name))]))

/-- Lines 240–261, `execute_tool`: run the internal logic; on any raised
exception, roll the session back and re-raise. -/
def execute_tool (env : ToolEnv) (tool_name : Str)
    (tool_input : List (Str × Json)) (db : DbSession) : DbSession × Except Str Json :=
  match execute_tool_internal env tool_name tool_input db with
  | (db1, .error e) => (db1.rollback, .error e)
  | ok => ok

/-- A `tool_use` content block of a model response. -/
structure ToolUseBlock where
  id : Str
  name : Str
  input : List (Str × Json)

/-- A content block of a model response. -/
inductive ContentBlock where
  | text (t : Str)
  | toolUse (b : ToolUseBlock)

/-- `response.stop_reason`. -/
inductive StopReason where
  | end_turn
  | tool_use
  | other (s : Str)

/-- A model response: stop reason and content blocks. -/
structure ModelResponse where
  stop_reason : StopReason
  content : List ContentBlock

/-- A `tool_result` dict appended to the conversation (`content` is the
`json.dumps` string; `is_error` marks converted exceptions). -/
structure ToolResultMsg where
  tool_use_id : Str
  content : Str
  is_error : Bool

/-- The `content` of a conversation message. -/
inductive MsgContent where
  | text (s : Str)
  | blocks (bs : List ContentBlock)
  | toolResults (rs : List ToolResultMsg)

/-- One entry of the `messages` conversation list. -/
structure Message where
  role : Str
  content : MsgContent

/-- Lines 487–508: execute every `tool_use` block of the turn in order,
threading the session; a raised exception becomes an `is_error` result
with `{"error": str(e)}` content and the remaining blocks still run. -/
def runToolBlocks (env : ToolEnv) : List ContentBlock → DbSession → List ToolResultMsg × DbSession
  | [], db => ([], db)
  | .text _ :: rest, db => runToolBlocks env rest db
  | .toolUse b :: rest, db =>
    match execute_tool env b.name b.input db with
    | (db1, .ok v) =>
      let tail := runToolBlocks env rest db1
      (⟨b.id, dumps v, false⟩ :: tail.1, tail.2)
    | (db1, .error e) =>
      let tail := runToolBlocks env rest db1
      (⟨b.id, dumps (Json.obj [("error".data, .str e)]), true⟩ :: tail.1, tail.2)

/-- Line 430–433: concatenate the text blocks of the final response. -/
def finalTextOf (content : List ContentBlock) : Str :=
  content.foldl (fun acc b => match b with | .text t => acc ++ t | .toolUse _ => acc) []

/-- Python `field in result` for a `json.loads` value: key membership
for dicts, element equality for lists, substring test for strings;
`in` on a number, boolean or `None` raises `TypeError` (`none`). -/
def pyIn (f : Str) : Json → Option Bool
  | .obj kvs => some (kvs.any (fun p => p.1 == f))
  | .arr xs => some (xs.any (fun j => match j with | .str s => s == f | _ => false))
  | .str s => some (strContains s f)
  | _ => none

/-- The failure modes of `dispatch_ticket_with_ai`. -/
inductive DispatchError where
  | apiKeyMissing
  | missingTicketField (f : Str)
  | invalidJsonOutput (finalText : Str)
  | missingOutputField (f : Str)
  | inNotSupported
  | unexpectedStopReason (s : Str)
  | exceededMaxIterations (cap : Nat)

/-- Lines 464–470: check the seven required output fields in order;
the first absent field raises `ValueError` (a `TypeError` if the parsed
result does not support `in`). -/
def checkFields (result : Json) : List Str → Except DispatchError Unit
  | [] => .ok ()
  | f :: fs =>
    match pyIn f result with
    | none => .error .inNotSupported
    | some false => .error (.missingOutputField f)
    | some true => checkFields result fs

/-- Line 464: the seven required output fields, in source order. -/
def required_output_fields : List Str :=
  ["status", "priority", "user_assignees", "crew_assignees", "labels", "comment",
   "justification"].map String.data

/-- Line 380: the four required ticket fields, in source order. -/
def required_fields : List Str :=
  ["ticket_subject", "ticket_body", "location_coordinates", "origin"].map String.data

/-- Line 412: the iteration cap. -/
def max_iterations : Nat := 20

/-- The oracles a dispatch run interacts with: the model, the routers,
and whether `log_conversation_to_file` raises. -/
structure DispatchEnv where
  model : List Message → ModelResponse
  tools : ToolEnv
  logRaises : Bool

/-- Observable state of a dispatch run: the conversation, the session,
and counters for model invocations and audit-log attempts/writes. -/
structure LoopState where
  messages : List Message
  db : DbSession
  invocations : Nat
  logAttempts : Nat
  logWrites : Nat

/-- Lines 415–516, the agent loop, by recursion on the remaining
iteration budget.  Each round invokes the model; `end_turn` parses and
validates the final text, attempts the audit log (lines 472–477: a
logging exception is caught and downgraded to a warning) and returns the
result; `tool_use` executes the tools and appends the two conversation
entries; any other stop reason raises.  An exhausted budget raises the
"exceeded maximum iterations" error. -/
def agentLoop (env : DispatchEnv) : Nat → LoopState → Except DispatchError Json × LoopState
  | 0, st => (.error (.exceededMaxIterations max_iterations), st)
  | n + 1, st =>
    let resp := env.model st.messages
    let st1 : LoopState := { st with invocations := st.invocations + 1 }
    match resp.stop_reason with
    | .end_turn =>
      let ft := finalTextOf resp.content
      match parseFinal ft with
      | none => (.error (.invalidJsonOutput ft), st1)
      | some result =>
        match checkFields result required_output_fields with
        | .error e => (.error e, st1)
        | .ok _ =>
          let st2 : LoopState :=
            { st1 with
              logAttempts := st1.logAttempts + 1
              logWrites := st1.logWrites + (if env.logRaises then 0 else 1) }
          (.ok result, st2)
    | .tool_use =>
      let msgs1 := st1.messages ++ [⟨"assistant".data, .blocks resp.content⟩]
      let res := runToolBlocks env.tools resp.content st1.db
      let msgs2 := msgs1 ++ [⟨"user".data, .toolResults res.1⟩]
      agentLoop env n { st1 with messages := msgs2, db := res.2 }
    | .other s => (.error (.unexpectedStopReason s), st1)

/-- A value stored in the ticket dict. -/
inductive PyVal where
  | none
  | str (s : Str)
  | json (j : Json)

/-- Python `field in ticket` on the ticket dict: key membership only —
the value (which may be `None`) is not inspected. -/
def t_hasKey (t : List (Str × PyVal)) (k : Str) : Bool :=
  t.any (fun p => p.1 == k)

/-- Ticket dict lookup. -/
def pyGetV (t : List (Str × PyVal)) (k : Str) : Option PyVal :=
  (t.find? (fun p => p.1 == k)).map (fun p => p.2)

/-- Python `str()` of a ticket value interpolated into the f-string. -/
def pyStrOfVal : PyVal → Str
  | .none => "None".data
  | .str s => s
  | .json j => pyReprV dumpFuel j

/-- Lines 395–406: the f-string shown to the model.  Called only after
validation has ensured the four required keys are present. -/
def ticketMessage (t : List (Str × PyVal)) : Str :=
  "Please process the following ticket:\n\n**Ticket Subject**: ".data
  ++ pyStrOfVal ((pyGetV t "ticket_subject".data).getD (.str []))
  ++ "\n\n**Ticket Body**: ".data
  ++ pyStrOfVal ((pyGetV t "ticket_body".data).getD (.str []))
  ++ "\n\n**Location Coordinates**: ".data
  ++ pyStrOfVal ((pyGetV t "location_coordinates".data).getD (.str []))
  ++ "\n\n**Origin**: ".data
  ++ pyStrOfVal ((pyGetV t "origin".data).getD (.str []))
  ++ "\n\n**Reporter ID**: ".data
  ++ (match pyGetV t "reporter_id".data with
      | some v => pyStrOfVal v
      | none => "N/A".data)
  ++ "\n".data

/-- Lines 332–516, `dispatch_ticket_with_ai`: resolve the API key (the
explicit argument, else the environment variable; a missing or empty key
raises), validate that each required ticket field is a key of the ticket
dict, seed the conversation with the ticket message, and run the agent
loop with the fixed iteration budget. -/
def dispatch_ticket_with_ai (env : DispatchEnv) (ticket : List (Str × PyVal))
    (db : DbSession) (api_key env_api_key : Option Str) :
    Except DispatchError Json × LoopState :=
  let key := match api_key with | some k => some k | none => env_api_key
  match key with
  | none => (.error .apiKeyMissing, ⟨[], db, 0, 0, 0⟩)
  | some k =>
    if k = [] then (.error .apiKeyMissing, ⟨[], db, 0, 0, 0⟩)
    else
      match required_fields.find? (fun f => !(t_hasKey ticket f)) with
      | some f => (.error (.missingTicketField f), ⟨[], db, 0, 0, 0⟩)
      | none =>
        agentLoop env max_iterations
          ⟨[⟨"user".data, .text (ticketMessage ticket)⟩], db, 0, 0, 0⟩

/-- A ticket SQLAlchemy model, reduced to the attributes
`dispatch_ticket_model` reads.  A PostGIS point is abstracted to its
`lat`/`lng` payloads. -/
structure TicketModel where
  ticket_subject : Str
  ticket_body : Str
  origin_value : Str
  reporter_id : Option Str
  location_coordinates : Option (Json × Json)

/-- `routers/tickets.py` lines 42–47, `serialize_location`: `None` maps
to `None`, a geometry to the dict with its `lat` and `lng`. -/
def serialize_location : Option (Json × Json) → PyVal
  | Option.none => PyVal.none
  | some (la, ln) => PyVal.json (Json.obj [("lat".data, la), ("lng".data, ln)])

/-- Lines 532–545: the ticket dict built by `dispatch_ticket_model`.
The `location_coordinates` key is always added — with value `None` when
the model has no location. -/
def modelTicketDict (tm : TicketModel) : List (Str × PyVal) :=
  [("ticket_subject".data, .str tm.ticket_subject),
   ("ticket_body".data, .str tm.ticket_body),
   ("origin".data, .str tm.origin_value),
   ("reporter_id".data, match tm.reporter_id with | some r => .str r | Option.none => .none),
   ("location_coordinates".data, serialize_location tm.location_coordinates)]

/-- Lines 520–547, `dispatch_ticket_model`: build the dict from the
model object and dispatch it. -/
def dispatch_ticket_model (env : DispatchEnv) (tm : TicketModel) (db : DbSession)
    (api_key env_api_key : Option Str) : Except DispatchError Json × LoopState :=
  dispatch_ticket_with_ai env (modelTicketDict tm) db api_key env_api_key

/-- Modelled from the spec (Data Model, DispatchDecision): all seven
fields present and type-correct — status and justification strings,
priority one of high/medium/low, the three assignee/label fields lists
of identifier strings, comment a dict. -/
def decisionTypeCorrect (d : Json) : Bool :=
  match d with
  | .obj kvs =>
    (match dictGet kvs "status".data with | some (.str _) => true | _ => false) &&
    (match dictGet kvs "priority".data with
     | some (.str p) => p == "high".data || p == "medium".data || p == "low".data
     | _ => false) &&
    (match dictGet kvs "user_assignees".data with
     | some (.arr xs) => xs.all (fun j => match j with | .str _ => true | _ => false)
     | _ => false) &&
    (match dictGet kvs "crew_assignees".data with
     | some (.arr xs) => xs.all (fun j => match j with | .str _ => true | _ => false)
     | _ => false) &&
    (match dictGet kvs "labels".data with
     | some (.arr xs) => xs.all (fun j => match j with | .str _ => true | _ => false)
     | _ => false) &&
    (match dictGet kvs "comment".data with | some (.obj _) => true | _ => false) &&
    (match dictGet kvs "justification".data with | some (.str _) => true | _ => false)
  | _ => false

/-! ### Concrete fixtures used by witnesses and counterexamples -/

/-- Routers that return empty row lists and leave the session alone. -/
def fxTools : ToolEnv :=
  ⟨fun _ db => (db, .ok []), fun _ db => (db, .ok []), fun _ _ _ db => (db, .ok [])⟩

/-- Helper to assemble a brace-delimited JSON text. -/
def obr (s : String) : Str := lbrace :: s.data ++ [rbrace]

/-- A fully-valid final decision text. -/
def fxDecText : Str :=
  obr ("\"status\": \"awaiting response\", \"priority\": \"low\", \"user_assignees\": [], \"crew_assignees\": [], \"labels\": [], \"comment\": ".data.asString
    ++ (obr "\"comment_body\": \"hi\"").asString ++ ", \"justification\": \"ok\"")

/-- The decision `fxDecText` parses to. -/
def fxDec : Json := Json.obj
  [("status".data, .str "awaiting response".data), ("priority".data, .str "low".data),
   ("user_assignees".data, .arr []), ("crew_assignees".data, .arr []),
   ("labels".data, .arr []),
   ("comment".data, .obj [("comment_body".data, .str "hi".data)]),
   ("justification".data, .str "ok".data)]

/-- A well-formed ticket dict. -/
def fxTicket : List (Str × PyVal) :=
  [("ticket_subject".data, .str "Pothole".data),
   ("ticket_body".data, .str "Big hole".data),
   ("location_coordinates".data, .json (Json.obj [("lat".data, .num 40), ("lng".data, .num (-74))])),
   ("origin".data, .str "web form".data)]

/-- A model mock that immediately returns the valid decision. -/
def fxEnvFinal : DispatchEnv := ⟨fun _ => ⟨.end_turn, [.text fxDecText]⟩, fxTools, false⟩

/-- A model mock that requests tools on every turn. -/
def fxEnvToolsForever : DispatchEnv := ⟨fun _ => ⟨.tool_use, []⟩, fxTools, false⟩

/-! ### Shared helper lemmas -/

/-- A ticket with every required field passes input validation. -/
theorem find_missing_none (ticket : List (Str × PyVal))
    (h : ∀ f ∈ required_fields, t_hasKey ticket f = true) :
    required_fields.find? (fun f => !(t_hasKey ticket f)) = none := by
  rw [List.find?_eq_none]
  intro x hx
  simp [h x hx]

/-- Unfolding of the dispatch wrapper on a good key and a ticket with
every required field: it runs the loop from the seeded conversation. -/
theorem dispatch_eq_agentLoop (env : DispatchEnv) (ticket : List (Str × PyVal))
    (db : DbSession) (k : Str) (ek : Option Str) (hk : k ≠ [])
    (hticket : ∀ f ∈ required_fields, t_hasKey ticket f = true) :
    dispatch_ticket_with_ai env ticket db (some k) ek =
      agentLoop env max_iterations
        ⟨[⟨"user".data, .text (ticketMessage ticket)⟩], db, 0, 0, 0⟩ := by
  unfold dispatch_ticket_with_ai
  rw [find_missing_none ticket hticket]
  simp [hk]

/-! ### C1 -/

/-- C1: for every ticket dict containing all four required fields, if
the model returns stop reason `end_turn` on the first invocation with
final text that parses (directly) as JSON containing all seven required
output fields, then `dispatch_ticket_with_ai` returns exactly the parsed
decision, after exactly one model invocation. -/
theorem C1_one_shot_dispatch (env : DispatchEnv) (ticket : List (Str × PyVal))
    (db : DbSession) (k : Str) (ek : Option Str) (d : Json)
    (hk : k ≠ [])
    (hticket : ∀ f ∈ required_fields, t_hasKey ticket f = true)
    (hstop : (env.model [⟨"user".data, .text (ticketMessage ticket)⟩]).stop_reason = .end_turn)
    (hparse : json_loads
      (finalTextOf (env.model [⟨"user".data, .text (ticketMessage ticket)⟩]).content) = some d)
    (hfields : checkFields d required_output_fields = .ok ()) :
    (dispatch_ticket_with_ai env ticket db (some k) ek).1 = .ok d ∧
    (dispatch_ticket_with_ai env ticket db (some k) ek).2.invocations = 1 := by
  rw [dispatch_eq_agentLoop env ticket db k ek hk hticket]
  rw [show max_iterations = 19 + 1 from rfl]
  simp only [agentLoop, hstop, parseFinal, hparse, hfields]
  exact ⟨trivial, trivial⟩

/-- Witness for C1 at the concrete fixtures. -/
theorem C1_witness :
    (dispatch_ticket_with_ai fxEnvFinal fxTicket ⟨[]⟩ (some "k".data) none).1 = .ok fxDec ∧
    (dispatch_ticket_with_ai fxEnvFinal fxTicket ⟨[]⟩ (some "k".data) none).2.invocations = 1 :=
  C1_one_shot_dispatch fxEnvFinal fxTicket ⟨[]⟩ "k".data none fxDec
    (by decide) (by decide) rfl rfl rfl

/-! ### C3 -/

/-- With a model that always requests tools, every round recurses and
the budget is exhausted after exactly as many invocations as the fuel. -/
theorem agentLoop_tool_use_forever (env : DispatchEnv)
    (h : ∀ msgs, (env.model msgs).stop_reason = .tool_use) :
    ∀ (n : Nat) (st : LoopState),
      (agentLoop env n st).1 = .error (.exceededMaxIterations max_iterations) ∧
      (agentLoop env n st).2.invocations = st.invocations + n := by
  intro n
  induction n with
  | zero => intro st; exact ⟨rfl, rfl⟩
  | succ m ih =>
    intro st
    have hstep : agentLoop env (m + 1) st =
        agentLoop env m
          { st with
            invocations := st.invocations + 1
            messages :=
              (st.messages ++ [⟨"assistant".data, .blocks (env.model st.messages).content⟩]) ++
                [⟨"user".data,
                  .toolResults (runToolBlocks env.tools (env.model st.messages).content st.db).1⟩]
            db := (runToolBlocks env.tools (env.model st.messages).content st.db).2 } := by
      simp only [agentLoop, h st.messages]
    rw [hstep]
    refine ⟨(ih _).1, ?_⟩
    rw [(ih _).2]
    simp
    omega

/-- C3: a model that returns `tool_use` on every invocation makes
`dispatch_ticket_with_ai` fail with the exceeded-iteration-budget error
after exactly 20 model invocations. -/
theorem C3_budget_exhaustion (env : DispatchEnv) (ticket : List (Str × PyVal))
    (db : DbSession) (k : Str) (ek : Option Str)
    (hk : k ≠ [])
    (hticket : ∀ f ∈ required_fields, t_hasKey ticket f = true)
    (h : ∀ msgs, (env.model msgs).stop_reason = .tool_use) :
    (dispatch_ticket_with_ai env ticket db (some k) ek).1 =
      .error (.exceededMaxIterations 20) ∧
    (dispatch_ticket_with_ai env ticket db (some k) ek).2.invocations = 20 := by
  rw [dispatch_eq_agentLoop env ticket db k ek hk hticket]
  exact (agentLoop_tool_use_forever env h max_iterations _)

/-- Witness for C3 at the concrete fixtures. -/
theorem C3_witness :
    (dispatch_ticket_with_ai fxEnvToolsForever fxTicket ⟨[]⟩ (some "k".data) none).1 =
      .error (.exceededMaxIterations 20) ∧
    (dispatch_ticket_with_ai fxEnvToolsForever fxTicket ⟨[]⟩ (some "k".data) none).2.invocations = 20 :=
  C3_budget_exhaustion fxEnvToolsForever fxTicket ⟨[]⟩ "k".data none
    (by decide) (by decide) (fun _ => rfl)

/-! ### C7 -/

/-- The logger flag influences nothing observable except the count of
successful log writes: result, conversation, session and the other
counters are identical whether or not `log_conversation_to_file`
raises. -/
theorem agentLoop_logRaises_irrelevant (m : List Message → ModelResponse)
    (tl : ToolEnv) (b1 b2 : Bool) :
    ∀ (n : Nat) (st : LoopState),
      (agentLoop ⟨m, tl, b1⟩ n st).1 = (agentLoop ⟨m, tl, b2⟩ n st).1 ∧
      (agentLoop ⟨m, tl, b1⟩ n st).2.invocations = (agentLoop ⟨m, tl, b2⟩ n st).2.invocations ∧
      (agentLoop ⟨m, tl, b1⟩ n st).2.logAttempts = (agentLoop ⟨m, tl, b2⟩ n st).2.logAttempts ∧
      (agentLoop ⟨m, tl, b1⟩ n st).2.messages = (agentLoop ⟨m, tl, b2⟩ n st).2.messages ∧
      (agentLoop ⟨m, tl, b1⟩ n st).2.db = (agentLoop ⟨m, tl, b2⟩ n st).2.db := by
  intro n
  induction n with
  | zero => intro st; exact ⟨rfl, rfl, rfl, rfl, rfl⟩
  | succ k ih =>
    intro st
    cases hsr : (m st.messages).stop_reason with
    | end_turn =>
      cases hpf : parseFinal (finalTextOf (m st.messages).content) with
      | none => simp [agentLoop, hsr, hpf]
      | some r =>
        cases hcf : checkFields r required_output_fields with
        | error e => simp [agentLoop, hsr, hpf, hcf]
        | ok u => simp [agentLoop, hsr, hpf, hcf]
    | tool_use => simp only [agentLoop, hsr]; exact ih _
    | other s => simp [agentLoop, hsr]

/-- With a logger that always raises, no successful write is ever
recorded. -/
theorem agentLoop_logRaises_no_write (env : DispatchEnv) (hb : env.logRaises = true) :
    ∀ (n : Nat) (st : LoopState),
      (agentLoop env n st).2.logWrites = st.logWrites := by
  intro n
  induction n with
  | zero => intro st; rfl
  | succ k ih =>
    intro st
    cases hsr : (env.model st.messages).stop_reason with
    | end_turn =>
      cases hpf : parseFinal (finalTextOf (env.model st.messages).content) with
      | none => simp only [agentLoop, hsr, hpf]
      | some r =>
        cases hcf : checkFields r required_output_fields with
        | error e => simp only [agentLoop, hsr, hpf, hcf]
        | ok u => simp only [agentLoop, hsr, hpf, hcf]; simp [hb]
    | tool_use => simp only [agentLoop, hsr]; exact ih _
    | other s => simp only [agentLoop, hsr]

/-- C7: whether the audit-log write raises on every invocation changes
neither the result of `dispatch_ticket_with_ai` nor any other observable
of the run (invocations, log attempts, conversation, session); with an
always-raising logger no write ever succeeds, yet the caller sees the
same decision. -/
theorem C7_log_failure_harmless (m : List Message → ModelResponse) (tl : ToolEnv)
    (ticket : List (Str × PyVal)) (db : DbSession) (api ek : Option Str) :
    (dispatch_ticket_with_ai ⟨m, tl, true⟩ ticket db api ek).1 =
      (dispatch_ticket_with_ai ⟨m, tl, false⟩ ticket db api ek).1 ∧
    (dispatch_ticket_with_ai ⟨m, tl, true⟩ ticket db api ek).2.invocations =
      (dispatch_ticket_with_ai ⟨m, tl, false⟩ ticket db api ek).2.invocations ∧
    (dispatch_ticket_with_ai ⟨m, tl, true⟩ ticket db api ek).2.logAttempts =
      (dispatch_ticket_with_ai ⟨m, tl, false⟩ ticket db api ek).2.logAttempts ∧
    (dispatch_ticket_with_ai ⟨m, tl, true⟩ ticket db api ek).2.logWrites = 0 := by
  unfold dispatch_ticket_with_ai
  rcases api with _ | k
  · rcases ek with _ | k
    · exact ⟨rfl, rfl, rfl, rfl⟩
    · by_cases hk : k = []
      · subst hk; exact ⟨rfl, rfl, rfl, rfl⟩
      · simp only [if_neg hk]
        rcases hf : required_fields.find? (fun f => !(t_hasKey ticket f)) with _ | f
        · have h := agentLoop_logRaises_irrelevant m tl true false max_iterations
            ⟨[⟨"user".data, .text (ticketMessage ticket)⟩], db, 0, 0, 0⟩
          have h2 := agentLoop_logRaises_no_write ⟨m, tl, true⟩ rfl max_iterations
            ⟨[⟨"user".data, .text (ticketMessage ticket)⟩], db, 0, 0, 0⟩
          exact ⟨h.1, h.2.1, h.2.2.1, h2⟩
        · exact ⟨rfl, rfl, rfl, rfl⟩
  · by_cases hk : k = []
    · subst hk; exact ⟨rfl, rfl, rfl, rfl⟩
    · simp only [if_neg hk]
      rcases hf : required_fields.find? (fun f => !(t_hasKey ticket f)) with _ | f
      · have h := agentLoop_logRaises_irrelevant m tl true false max_iterations
          ⟨[⟨"user".data, .text (ticketMessage ticket)⟩], db, 0, 0, 0⟩
        have h2 := agentLoop_logRaises_no_write ⟨m, tl, true⟩ rfl max_iterations
          ⟨[⟨"user".data, .text (ticketMessage ticket)⟩], db, 0, 0, 0⟩
        exact ⟨h.1, h.2.1, h.2.2.1, h2⟩
      · exact ⟨rfl, rfl, rfl, rfl⟩

/-! ### C9 -/

/-- A loop run that ends in an error never touches the audit-log
counters. -/
theorem agentLoop_error_no_log (env : DispatchEnv) :
    ∀ (n : Nat) (st : LoopState) (e : DispatchError),
      (agentLoop env n st).1 = .error e →
      (agentLoop env n st).2.logAttempts = st.logAttempts ∧
      (agentLoop env n st).2.logWrites = st.logWrites := by
  intro n
  induction n with
  | zero => intro st e _; exact ⟨rfl, rfl⟩
  | succ k ih =>
    intro st e
    cases hsr : (env.model st.messages).stop_reason with
    | end_turn =>
      cases hpf : parseFinal (finalTextOf (env.model st.messages).content) with
      | none => simp [agentLoop, hsr, hpf]
      | some r =>
        cases hcf : checkFields r required_output_fields with
        | error e2 => simp [agentLoop, hsr, hpf, hcf]
        | ok u => simp [agentLoop, hsr, hpf, hcf]
    | tool_use => simp only [agentLoop, hsr]; exact ih _ e
    | other s => simp [agentLoop, hsr]

/-- C9: every failing run of `dispatch_ticket_with_ai` (bad key, missing
ticket field, protocol violation, exceeded budget, unparseable final
text, or missing output field) leaves the audit-log counters at zero —
`log_conversation_to_file` is reached only on the successful path. -/
theorem C9_no_audit_on_failure (env : DispatchEnv) (ticket : List (Str × PyVal))
    (db : DbSession) (api ek : Option Str) (e : DispatchError)
    (h : (dispatch_ticket_with_ai env ticket db api ek).1 = .error e) :
    (dispatch_ticket_with_ai env ticket db api ek).2.logAttempts = 0 ∧
    (dispatch_ticket_with_ai env ticket db api ek).2.logWrites = 0 := by
  unfold dispatch_ticket_with_ai at h ⊢
  rcases api with _ | k
  · rcases ek with _ | k
    · exact ⟨rfl, rfl⟩
    · by_cases hk : k = []
      · subst hk; exact ⟨rfl, rfl⟩
      · simp only [if_neg hk] at h ⊢
        rcases hf : required_fields.find? (fun f => !(t_hasKey ticket f)) with _ | f
        · rw [hf] at h; exact agentLoop_error_no_log env max_iterations _ e h
        · exact ⟨rfl, rfl⟩
  · by_cases hk : k = []
    · subst hk; exact ⟨rfl, rfl⟩
    · simp only [if_neg hk] at h ⊢
      rcases hf : required_fields.find? (fun f => !(t_hasKey ticket f)) with _ | f
      · rw [hf] at h; exact agentLoop_error_no_log env max_iterations _ e h
      · exact ⟨rfl, rfl⟩

/-- Witness for C9: the tools-forever run fails and logs nothing. -/
theorem C9_witness :
    (dispatch_ticket_with_ai fxEnvToolsForever fxTicket ⟨[]⟩ (some "k".data) none).2.logAttempts = 0 ∧
    (dispatch_ticket_with_ai fxEnvToolsForever fxTicket ⟨[]⟩ (some "k".data) none).2.logWrites = 0 :=
  C9_no_audit_on_failure fxEnvToolsForever fxTicket ⟨[]⟩ (some "k".data) none
    (.exceededMaxIterations 20) rfl

/-! ### C10 -/

/-- Output-field validation never produces the missing-ticket-field
error. -/
theorem checkFields_no_ticket_error (d : Json) :
    ∀ (fs : List Str) (f : Str), checkFields d fs ≠ .error (.missingTicketField f) := by
  intro fs
  induction fs with
  | nil => intro f h; simp [checkFields] at h
  | cons g gs ih =>
    intro f
    simp only [checkFields]
    rcases pyIn g d with _ | b
    · intro h; simp at h
    · rcases b with _ | _
      · intro h; simp at h
      · exact ih f

/-- The agent loop never produces the missing-ticket-field error: input
validation happens only in the wrapper. -/
theorem agentLoop_no_ticket_error (env : DispatchEnv) :
    ∀ (n : Nat) (st : LoopState) (f : Str),
      (agentLoop env n st).1 ≠ .error (.missingTicketField f) := by
  intro n
  induction n with
  | zero => intro st f h; simp [agentLoop] at h
  | succ k ih =>
    intro st f
    cases hsr : (env.model st.messages).stop_reason with
    | end_turn =>
      cases hpf : parseFinal (finalTextOf (env.model st.messages).content) with
      | none => simp only [agentLoop, hsr, hpf]; intro h; simp at h
      | some r =>
        cases hcf : checkFields r required_output_fields with
        | error e2 =>
          simp only [agentLoop, hsr, hpf, hcf]
          intro h
          simp only [Except.error.injEq] at h
          exact checkFields_no_ticket_error r required_output_fields f (by rw [hcf, h])
        | ok u => simp only [agentLoop, hsr, hpf, hcf]; intro h; simp at h
    | tool_use => simp only [agentLoop, hsr]; exact ih _ f
    | other s => simp only [agentLoop, hsr]; intro h; simp at h

/-- C10: ticket input validation checks key presence only.  A ticket
model without a location yields, through `dispatch_ticket_model`, a
ticket dict whose `location_coordinates` key is present with value
`None`; that dict passes validation, and the dispatch never fails with
the missing-ticket-field error. -/
theorem C10_none_location_passes (env : DispatchEnv) (tm : TicketModel)
    (db : DbSession) (api ek : Option Str)
    (h : tm.location_coordinates = none) :
    pyGetV (modelTicketDict tm) "location_coordinates".data = some PyVal.none ∧
    required_fields.find? (fun f => !(t_hasKey (modelTicketDict tm) f)) = none ∧
    ∀ f, (dispatch_ticket_model env tm db api ek).1 ≠ .error (.missingTicketField f) := by
  refine ⟨?_, ?_, ?_⟩
  · unfold modelTicketDict; rw [h]; rfl
  · rfl
  · intro f
    unfold dispatch_ticket_model dispatch_ticket_with_ai
    rcases api with _ | k
    · rcases ek with _ | k
      · intro hcontra; simp at hcontra
      · by_cases hk : k = []
        · subst hk; intro hcontra; simp at hcontra
        · simp only [if_neg hk]
          rw [show required_fields.find? (fun f => !(t_hasKey (modelTicketDict tm) f)) = none from rfl]
          exact agentLoop_no_ticket_error env max_iterations _ f
    · by_cases hk : k = []
      · subst hk; intro hcontra; simp at hcontra
      · simp only [if_neg hk]
        rw [show required_fields.find? (fun f => !(t_hasKey (modelTicketDict tm) f)) = none from rfl]
        exact agentLoop_no_ticket_error env max_iterations _ f

/-- A ticket model with no location, for the C10 witness. -/
def fxTicketModel : TicketModel := ⟨"a".data, "b".data, "phone".data, none, none⟩

/-- Witness for C10 at a concrete location-free ticket model. -/
theorem C10_witness :
    pyGetV (modelTicketDict fxTicketModel) "location_coordinates".data = some PyVal.none ∧
    required_fields.find? (fun f => !(t_hasKey (modelTicketDict fxTicketModel) f)) = none ∧
    ∀ f, (dispatch_ticket_model fxEnvFinal fxTicketModel ⟨[]⟩ (some "k".data) none).1 ≠
      .error (.missingTicketField f) :=
  C10_none_location_passes fxEnvFinal fxTicketModel ⟨[]⟩ (some "k".data) none rfl

/-! ### C5 -/

/-- C5: an unknown tool name and an invalid crew type both yield a
structured `{"error": ...}` payload from the tool executor rather than an
exception, and a turn consisting of such a call continues to the next
model invocation with the payload recorded as the (non-`is_error`) tool
result. -/
theorem C5_structured_tool_errors :
    (∀ (env : ToolEnv) (tool_name : Str) (tool_input : List (Str × Json)) (db : DbSession),
      tool_name ≠ "get_labels".data → tool_name ≠ "get_users".data →
      tool_name ≠ "get_nearest_crews".data →
      execute_tool_internal env tool_name tool_input db =
        (db, .ok (Json.obj [("error".data, .str ("Unknown tool: ".data ++ tool_name))]))) ∧
    (∀ (env : ToolEnv) (tool_input : List (Str × Json)) (db : DbSession),
      SupportCrewType.ofValue? (dictGet tool_input "crew_type".data) = none →
      execute_tool_internal env "get_nearest_crews".data tool_input db =
        (db, .ok (Json.obj [("error".data,
          .str ("Invalid crew_type: ".data ++ pyStrOfOptJson (dictGet tool_input "crew_type".data)))]))) ∧
    (∀ (env : DispatchEnv) (n : Nat) (st : LoopState) (b : ToolUseBlock) (payload : Json),
      env.model st.messages = ⟨.tool_use, [.toolUse b]⟩ →
      execute_tool_internal env.tools b.name b.input st.db = (st.db, .ok payload) →
      agentLoop env (n + 1) st = agentLoop env n
        { st with
          invocations := st.invocations + 1
          messages := st.messages ++ [⟨"assistant".data, .blocks [.toolUse b]⟩]
            ++ [⟨"user".data, .toolResults [⟨b.id, dumps payload, false⟩]⟩]
          db := st.db }) := by
  refine ⟨?_, ?_, ?_⟩
  · intro env tool_name tool_input db h1 h2 h3
    unfold execute_tool_internal
    rw [if_neg h1, if_neg h2, if_neg h3]
  · intro env tool_input db hct
    unfold execute_tool_internal
    rw [if_neg (by decide), if_neg (by decide), if_pos rfl, hct]
  · intro env n st b payload hresp hexec
    simp only [agentLoop, hresp, runToolBlocks, execute_tool, hexec]

/-- A single-turn environment whose model requests one unknown tool. -/
def fxEnvUnknownTool : DispatchEnv :=
  ⟨fun _ => ⟨.tool_use, [.toolUse ⟨"id1".data, "bogus".data, []⟩]⟩, fxTools, false⟩

/-- An empty loop state over an empty session. -/
def fxSt0 : LoopState := ⟨[], ⟨[]⟩, 0, 0, 0⟩

/-- Witness for C5: the unknown-tool payload, the invalid-crew-type
payload, and the continuing loop, at concrete inputs. -/
theorem C5_witness :
    execute_tool_internal fxTools "bogus".data [] ⟨[]⟩ =
      (⟨[]⟩, .ok (Json.obj [("error".data, .str ("Unknown tool: ".data ++ "bogus".data))])) ∧
    execute_tool_internal fxTools "get_nearest_crews".data
        [("crew_type".data, Json.str "bulldozer".data)] ⟨[]⟩ =
      (⟨[]⟩, .ok (Json.obj [("error".data, .str ("Invalid crew_type: ".data ++
        pyStrOfOptJson (dictGet [("crew_type".data, Json.str "bulldozer".data)] "crew_type".data)))])) ∧
    agentLoop fxEnvUnknownTool 1 fxSt0 = agentLoop fxEnvUnknownTool 0
      { fxSt0 with
        invocations := fxSt0.invocations + 1
        messages := fxSt0.messages
          ++ [⟨"assistant".data, .blocks [.toolUse ⟨"id1".data, "bogus".data, []⟩]⟩]
          ++ [⟨"user".data, .toolResults [⟨"id1".data,
                dumps (Json.obj [("error".data, .str ("Unknown tool: ".data ++ "bogus".data))]),
                false⟩]⟩]
        db := fxSt0.db } :=
  ⟨C5_structured_tool_errors.1 fxTools "bogus".data [] ⟨[]⟩ (by decide) (by decide) (by decide),
   C5_structured_tool_errors.2.1 fxTools [("crew_type".data, Json.str "bulldozer".data)] ⟨[]⟩ rfl,
   C5_structured_tool_errors.2.2 fxEnvUnknownTool 0 fxSt0 ⟨"id1".data, "bogus".data, []⟩
     (Json.obj [("error".data, .str ("Unknown tool: ".data ++ "bogus".data))]) rfl rfl⟩

/-! ### C6 -/

/-- C6: a raising tool execution rolls the shared session back before
the failure is converted; every `tool_use` block of a turn produces
exactly one tool result carrying its `tool_use_id`, in order; and a
failing call is converted to an `is_error` result with the
`{"error": str(e)}` content while the remaining calls of the turn run
against the rolled-back session. -/
theorem C6_rollback_and_isolation :
    (∀ (env : ToolEnv) (tool_name : Str) (tool_input : List (Str × Json))
       (db db1 : DbSession) (e : Str),
      execute_tool_internal env tool_name tool_input db = (db1, .error e) →
      execute_tool env tool_name tool_input db = (db1.rollback, .error e) ∧
      (db1.rollback).pending = []) ∧
    (∀ (env : ToolEnv) (blocks : List ContentBlock) (db : DbSession),
      (runToolBlocks env blocks db).1.map (fun r => r.tool_use_id) =
        blocks.filterMap (fun bl => match bl with
          | .toolUse b => some b.id
          | .text _ => none)) ∧
    (∀ (env : ToolEnv) (b : ToolUseBlock) (rest : List ContentBlock)
       (db db1 : DbSession) (e : Str),
      execute_tool env b.name b.input db = (db1, .error e) →
      runToolBlocks env (.toolUse b :: rest) db =
        (⟨b.id, dumps (Json.obj [("error".data, .str e)]), true⟩ :: (runToolBlocks env rest db1).1,
         (runToolBlocks env rest db1).2)) := by
  refine ⟨?_, ?_, ?_⟩
  · intro env tool_name tool_input db db1 e h
    unfold execute_tool
    rw [h]
    exact ⟨rfl, rfl⟩
  · intro env blocks
    induction blocks with
    | nil => intro db; rfl
    | cons bl rest ih =>
      intro db
      cases bl with
      | text t => simp only [runToolBlocks, List.filterMap]; exact ih db
      | toolUse b =>
        cases hex : execute_tool env b.name b.input db with
        | mk db1 r =>
          cases r with
          | ok v => simp [runToolBlocks, hex, ih db1]
          | error e => simp [runToolBlocks, hex, ih db1]
  · intro env b rest db db1 e h
    simp only [runToolBlocks, h]

/-- Routers whose label search raises after touching the session. -/
def fxBadTools : ToolEnv :=
  ⟨fun _ db => (⟨"stmt".data :: db.pending⟩, .error "boom".data),
   fun _ db => (db, .ok []),
   fun _ _ _ db => (db, .ok [])⟩

/-- Witness for C6 at concrete raising routers: the rollback, the
per-block correlation, and the error-shaped result with the remaining
block still executed. -/
theorem C6_witness :
    (execute_tool fxBadTools "get_labels".data [] ⟨["p".data]⟩ =
      ((⟨"stmt".data :: ["p".data]⟩ : DbSession).rollback, .error "boom".data) ∧
      ((⟨"stmt".data :: ["p".data]⟩ : DbSession).rollback).pending = []) ∧
    (runToolBlocks fxBadTools
        [.toolUse ⟨"id1".data, "get_labels".data, []⟩, .toolUse ⟨"id2".data, "get_users".data, []⟩]
        ⟨[]⟩).1.map (fun r => r.tool_use_id) = ["id1".data, "id2".data] ∧
    runToolBlocks fxBadTools [.toolUse ⟨"id1".data, "get_labels".data, []⟩,
        .toolUse ⟨"id2".data, "get_users".data, []⟩] ⟨[]⟩ =
      (⟨"id1".data, dumps (Json.obj [("error".data, .str "boom".data)]), true⟩ ::
        (runToolBlocks fxBadTools [.toolUse ⟨"id2".data, "get_users".data, []⟩]
          (⟨"stmt".data :: []⟩ : DbSession).rollback).1,
       (runToolBlocks fxBadTools [.toolUse ⟨"id2".data, "get_users".data, []⟩]
          (⟨"stmt".data :: []⟩ : DbSession).rollback).2) :=
  ⟨C6_rollback_and_isolation.1 fxBadTools "get_labels".data [] ⟨["p".data]⟩
      ⟨"stmt".data :: ["p".data]⟩ "boom".data rfl,
   C6_rollback_and_isolation.2.1 fxBadTools
      [.toolUse ⟨"id1".data, "get_labels".data, []⟩, .toolUse ⟨"id2".data, "get_users".data, []⟩]
      ⟨[]⟩,
   C6_rollback_and_isolation.2.2 fxBadTools ⟨"id1".data, "get_labels".data, []⟩
      [.toolUse ⟨"id2".data, "get_users".data, []⟩] ⟨[]⟩
      (⟨"stmt".data :: []⟩ : DbSession).rollback "boom".data rfl⟩

/-! ### C2 -/

/-- Three backticks. -/
def fence3 : Str := [btick, btick, btick]

/-- The spec's fencing of a JSON text: backticks, `json`, newline, the
text, newline, backticks. -/
def fenceWrap (j : Str) : Str := fence3 ++ "json\n".data ++ j ++ '\n' :: fence3

/-- Final text holding a valid brace-delimited JSON object followed by a
fenced block whose interior is not valid JSON. -/
def fxC2Text : Str := obr "\"a\": 1" ++ " ".data ++ fenceWrap (obr "oops")

/-- A model mock that returns `fxC2Text` as its final text. -/
def fxEnvC2 : DispatchEnv := ⟨fun _ => ⟨.end_turn, [.text fxC2Text]⟩, fxTools, false⟩

/-- Counterexample to C2: on `fxC2Text` the code's parser fails (the
fenced block matches but its interior is invalid, and the brace-substring
step is skipped), dispatch fails with the invalid-output error — while
the spec's ordered fallback would recover the decision from the leading
brace-delimited substring. -/
theorem C2_counterexample :
    parseFinal fxC2Text = none ∧
    specOrderedFallback fxC2Text = some (Json.obj [("a".data, Json.num 1)]) ∧
    (dispatch_ticket_with_ai fxEnvC2 fxTicket ⟨[]⟩ (some "k".data) none).1 =
      .error (.invalidJsonOutput fxC2Text) :=
  ⟨rfl, rfl, rfl⟩

/-- C2 (amended): the parser's fallback is ordered, but a fenced block,
once found, is authoritative: its interior's parse failure is terminal
and the brace-substring step runs only when no fenced block matched at
all. -/
theorem C2_amended_fallback_order (t : Str) :
    parseFinal t = amendedOrderedFallback t := by
  unfold parseFinal amendedOrderedFallback
  cases hjl : json_loads t with
  | some r => rfl
  | none =>
    cases hfs : fencedSearch t with
    | some g => cases hg : json_loads g with
      | some r => simp [hg]
      | none => simp [hg]
    | none =>
      cases hbs : braceSearch t with
      | some g => cases hg : json_loads g with
        | some r => simp [hg]
        | none => simp [hg]
      | none => rfl

/-! ### C4 -/

/-- A final text with all seven fields present but a number-valued
`labels` field. -/
def fxBadTypeText : Str :=
  obr ("\"status\": \"awaiting response\", \"priority\": \"low\", \"user_assignees\": [], \"crew_assignees\": [], \"labels\": 7, \"comment\": ".data.asString
    ++ (obr "\"comment_body\": \"hi\"").asString ++ ", \"justification\": \"ok\"")

/-- The decision `fxBadTypeText` parses to: type-incorrect `labels`. -/
def fxBadType : Json := Json.obj
  [("status".data, .str "awaiting response".data), ("priority".data, .str "low".data),
   ("user_assignees".data, .arr []), ("crew_assignees".data, .arr []),
   ("labels".data, .num 7),
   ("comment".data, .obj [("comment_body".data, .str "hi".data)]),
   ("justification".data, .str "ok".data)]

/-- A model mock that returns the type-incorrect decision. -/
def fxEnvBadType : DispatchEnv := ⟨fun _ => ⟨.end_turn, [.text fxBadTypeText]⟩, fxTools, false⟩

/-- Counterexample to C4: a parsed result with all seven fields present
but a type-incorrect `labels` (a number) is accepted by dispatch — the
validation checks presence only, so acceptance does not require
type-correctness. -/
theorem C4_counterexample :
    (dispatch_ticket_with_ai fxEnvBadType fxTicket ⟨[]⟩ (some "k".data) none).1 = .ok fxBadType ∧
    decisionTypeCorrect fxBadType = false :=
  ⟨rfl, rfl⟩

/-- Presence of every required field is exactly what output validation
accepts on a dict result. -/
theorem checkFields_obj_ok_iff (kvs : List (Str × Json)) :
    ∀ fs : List Str,
      checkFields (.obj kvs) fs = .ok () ↔ ∀ f ∈ fs, kvs.any (fun p => p.1 == f) = true := by
  intro fs
  induction fs with
  | nil =>
    constructor
    · intro _ f hf
      exact absurd hf (List.not_mem_nil f)
    · intro _
      rfl
  | cons g gs ih =>
    cases hany : kvs.any (fun p => p.1 == g) with
    | false =>
      simp only [checkFields, pyIn, hany]
      constructor
      · intro h; exact absurd h (by simp)
      · intro h; exact absurd (h g (by simp)) (by simp [hany])
    | true =>
      simp only [checkFields, pyIn, hany]
      rw [ih]
      constructor
      · intro h f hf
        rcases List.mem_cons.mp hf with rfl | hf2
        · exact hany
        · exact h f hf2
      · intro h f hf
        exact h f (List.mem_cons_of_mem g hf)

/-- A dict result missing some required field fails validation with a
missing-output-field error. -/
theorem checkFields_obj_missing (kvs : List (Str × Json)) :
    ∀ (fs : List Str) (f : Str), f ∈ fs → kvs.any (fun p => p.1 == f) = false →
      ∃ f', checkFields (.obj kvs) fs = .error (.missingOutputField f') := by
  intro fs
  induction fs with
  | nil => intro f hf; exact absurd hf (List.not_mem_nil f)
  | cons g gs ih =>
    intro f hf hmiss
    cases hany : kvs.any (fun p => p.1 == g) with
    | false => exact ⟨g, by simp only [checkFields, pyIn, hany]⟩
    | true =>
      rcases List.mem_cons.mp hf with rfl | hf2
      · rw [hany] at hmiss; exact absurd hmiss (by simp)
      · obtain ⟨f', hcf⟩ := ih f hf2 hmiss
        exact ⟨f', by simp only [checkFields, pyIn, hany, hcf]⟩

/-- C4 (amended): a parsed final response is accepted exactly when all
seven fields are present (types are never checked); any single missing
field makes dispatch fail with the missing-output-field error regardless
of the other fields, and no partial decision is returned. -/
theorem C4_presence_only_validation (env : DispatchEnv) (ticket : List (Str × PyVal))
    (db : DbSession) (k : Str) (ek : Option Str) (kvs : List (Str × Json)) (f : Str)
    (hk : k ≠ [])
    (hticket : ∀ g ∈ required_fields, t_hasKey ticket g = true)
    (hstop : (env.model [⟨"user".data, .text (ticketMessage ticket)⟩]).stop_reason = .end_turn)
    (hparse : parseFinal
      (finalTextOf (env.model [⟨"user".data, .text (ticketMessage ticket)⟩]).content) =
        some (.obj kvs))
    (hf : f ∈ required_output_fields)
    (hmiss : kvs.any (fun p => p.1 == f) = false) :
    (∃ f', (dispatch_ticket_with_ai env ticket db (some k) ek).1 =
      .error (.missingOutputField f')) ∧
    (∀ kvs' : List (Str × Json),
      checkFields (.obj kvs') required_output_fields = .ok () ↔
        ∀ g ∈ required_output_fields, kvs'.any (fun p => p.1 == g) = true) := by
  refine ⟨?_, fun kvs' => checkFields_obj_ok_iff kvs' required_output_fields⟩
  obtain ⟨f', hcf⟩ := checkFields_obj_missing kvs required_output_fields f hf hmiss
  refine ⟨f', ?_⟩
  rw [dispatch_eq_agentLoop env ticket db k ek hk hticket]
  rw [show max_iterations = 19 + 1 from rfl]
  simp only [agentLoop, hstop, hparse, hcf]

/-- A final text missing the `labels` field entirely. -/
def fxNoLabelsText : Str :=
  obr ("\"status\": \"awaiting response\", \"priority\": \"low\", \"user_assignees\": [], \"crew_assignees\": [], \"comment\": ".data.asString
    ++ (obr "\"comment_body\": \"hi\"").asString ++ ", \"justification\": \"ok\"")

/-- The six members `fxNoLabelsText` parses to. -/
def fxNoLabelsKvs : List (Str × Json) :=
  [("status".data, .str "awaiting response".data), ("priority".data, .str "low".data),
   ("user_assignees".data, .arr []), ("crew_assignees".data, .arr []),
   ("comment".data, .obj [("comment_body".data, .str "hi".data)]),
   ("justification".data, .str "ok".data)]

/-- A model mock that returns the labels-free decision. -/
def fxEnvNoLabels : DispatchEnv := ⟨fun _ => ⟨.end_turn, [.text fxNoLabelsText]⟩, fxTools, false⟩

/-- Witness for the amended C4 at the labels-free fixture. -/
theorem C4_witness :
    (∃ f', (dispatch_ticket_with_ai fxEnvNoLabels fxTicket ⟨[]⟩ (some "k".data) none).1 =
      .error (.missingOutputField f')) ∧
    (∀ kvs' : List (Str × Json),
      checkFields (.obj kvs') required_output_fields = .ok () ↔
        ∀ g ∈ required_output_fields, kvs'.any (fun p => p.1 == g) = true) :=
  C4_presence_only_validation fxEnvNoLabels fxTicket ⟨[]⟩ "k".data none
    fxNoLabelsKvs "labels".data (by decide) (by decide) rfl rfl (by decide) rfl

/-! ### C8 -/

/-- `json.loads` fails on any text beginning with a backtick, so the
whole-text parse of a fenced response always falls through. -/
theorem json_loads_btick (s : Str) : json_loads (btick :: s) = none := rfl

/-- Inside the fenced body, no closing brace before the end can pass the
`\s*``` check: the body has no triple backtick, and its last character
is a (non-whitespace) closing brace, so the whitespace skip never
reaches the closing fence early. -/
theorem startsFence_append_false :
    ∀ u : Str, u.getLast? = some rbrace → strContains u fence3 = false →
      startsFence (u ++ '\n' :: fence3) = false := by
  intro u
  induction u with
  | nil => intro h _; simp at h
  | cons x xs ih =>
    intro hlast hnf
    have hnf2 : strContains xs fence3 = false := by
      simp only [strContains, Bool.or_eq_false_iff] at hnf
      exact hnf.2
    by_cases hx : isWs x = true
    · cases xs with
      | nil =>
        have hxr : x = rbrace := by simpa using hlast
        rw [hxr] at hx
        exact absurd hx (by decide)
      | cons y ys =>
        have hlast2 : (y :: ys).getLast? = some rbrace := by
          rwa [List.getLast?_cons_cons] at hlast
        have hrec := ih hlast2 hnf2
        unfold startsFence at hrec ⊢
        simpa [List.dropWhile_cons, hx] using hrec
    · have hxw : isWs x = false := by simpa using hx
      unfold startsFence
      rw [show (x :: xs) ++ '\n' :: fence3 = x :: (xs ++ '\n' :: fence3) from rfl]
      rw [List.dropWhile_cons, if_neg (by simp [hxw])]
      by_cases hb1 : x = btick
      · subst hb1
        cases xs with
        | nil => simp [fence3, strStartsWith]; decide
        | cons y ys =>
          by_cases hb2 : y = btick
          · subst hb2
            cases ys with
            | nil => simp [fence3, strStartsWith]; decide
            | cons z zs =>
              by_cases hb3 : z = btick
              · subst hb3
                exfalso
                simp [strContains, strStartsWith, fence3] at hnf
              · simp [fence3, strStartsWith, hb3]
          · simp [fence3, strStartsWith, hb2]
      · simp [fence3, strStartsWith, hb1]

/-- The lazy `.*?\}` scan over the fenced body closes exactly at the
body's final closing brace. -/
theorem lazyClose_body :
    ∀ t : Str, t.getLast? = some rbrace → strContains t fence3 = false →
      lazyClose (t ++ '\n' :: fence3) = some (t, '\n' :: fence3) := by
  intro t
  induction t with
  | nil => intro h _; simp at h
  | cons c cs ih =>
    intro hlast hnf
    have hnf2 : strContains cs fence3 = false := by
      simp only [strContains, Bool.or_eq_false_iff] at hnf
      exact hnf.2
    cases cs with
    | nil =>
      have hc : c = rbrace := by simpa using hlast
      subst hc
      rfl
    | cons c2 cs2 =>
      have hlast2 : (c2 :: cs2).getLast? = some rbrace := by
        rwa [List.getLast?_cons_cons] at hlast
      have hsf : startsFence ((c2 :: cs2) ++ '\n' :: fence3) = false :=
        startsFence_append_false (c2 :: cs2) hlast2 hnf2
      have hrec := ih hlast2 hnf2
      rw [show (c :: c2 :: cs2) ++ '\n' :: fence3 = c :: ((c2 :: cs2) ++ '\n' :: fence3) from rfl]
      unfold lazyClose
      rw [hrec, hsf]
      simp

/-- The fenced-block regex on a spec-fenced body whose text is a single
brace-delimited object with no interior triple backtick captures exactly
that text. -/
theorem fencedSearch_fenceWrap (t : Str)
    (hlast : t.getLast? = some rbrace) (hnf : strContains t fence3 = false) :
    fencedSearch (fenceWrap (lbrace :: t)) = some (lbrace :: t) := by
  have hmat : matchAfterTicks ('j' :: 's' :: 'o' :: 'n' :: '\n' ::
      (lbrace :: (t ++ '\n' :: fence3))) = some (lbrace :: t) := by
    rw [show matchAfterTicks ('j' :: 's' :: 'o' :: 'n' :: '\n' ::
          (lbrace :: (t ++ '\n' :: fence3))) =
        (lazyClose (t ++ '\n' :: fence3)).map (fun p => lbrace :: p.1) from rfl]
    rw [lazyClose_body t hlast hnf]
    rfl
  show fencedSearch (btick :: btick :: btick :: 'j' :: 's' :: 'o' :: 'n' :: '\n' ::
      (lbrace :: (t ++ '\n' :: fence3))) = some (lbrace :: t)
  unfold fencedSearch
  rw [show (((btick :: btick :: 'j' :: 's' :: 'o' :: 'n' :: '\n' ::
      (lbrace :: (t ++ '\n' :: fence3))) : Str).drop 2) =
      'j' :: 's' :: 'o' :: 'n' :: '\n' :: (lbrace :: (t ++ '\n' :: fence3)) from rfl]
  rw [hmat]
  rfl

/-- A decision text whose `justification` string contains a closing
brace, whitespace and a triple backtick. -/
def fxC8BadText : Str :=
  obr ("\"status\": \"a\", \"priority\": \"b\", \"user_assignees\": [], \"crew_assignees\": [], \"labels\": [], \"comment\": \"ok\", \"justification\": \"".data.asString
    ++ ([rbrace] ++ " ".data ++ fence3 ++ " j".data).asString ++ "\"")

/-- The decision `fxC8BadText` parses to. -/
def fxC8BadDec : Json := Json.obj
  [("status".data, .str "a".data), ("priority".data, .str "b".data),
   ("user_assignees".data, .arr []), ("crew_assignees".data, .arr []),
   ("labels".data, .arr []), ("comment".data, .str "ok".data),
   ("justification".data, .str ([rbrace] ++ " ".data ++ fence3 ++ " j".data))]

/-- Counterexample to C8: a JSON object text that parses to a decision
with all seven fields, whose `justification` string contains
``} ``` ``; raw, the parser recovers the decision, but fenced, the
capture group ends inside the string, its interior fails to parse, and
the whole parse fails. -/
theorem C8_counterexample :
    json_loads fxC8BadText = some fxC8BadDec ∧
    checkFields fxC8BadDec required_output_fields = .ok () ∧
    parseFinal fxC8BadText = some fxC8BadDec ∧
    parseFinal (fenceWrap fxC8BadText) = none :=
  ⟨rfl, rfl, rfl, rfl⟩

/-- C8 (amended): for every JSON object text — starting at its opening
brace and ending at its closing brace — that parses to a decision with
all seven fields and contains no triple backtick, wrapping it in a
markdown code fence yields the same decision as the raw text. -/
theorem C8_fenced_equals_raw (t : Str) (d : Json)
    (hlast : t.getLast? = some rbrace)
    (hnf : strContains (lbrace :: t) fence3 = false)
    (hparse : json_loads (lbrace :: t) = some d)
    (_hfields : checkFields d required_output_fields = .ok ()) :
    parseFinal (fenceWrap (lbrace :: t)) = some d ∧
    parseFinal (lbrace :: t) = some d := by
  have hnf2 : strContains t fence3 = false := by
    simp only [strContains, Bool.or_eq_false_iff] at hnf
    exact hnf.2
  have h1 : json_loads (fenceWrap (lbrace :: t)) = none := json_loads_btick _
  have h2 : fencedSearch (fenceWrap (lbrace :: t)) = some (lbrace :: t) :=
    fencedSearch_fenceWrap t hlast hnf2
  constructor
  · unfold parseFinal
    simp only [h1, h2, hparse]
  · unfold parseFinal
    simp only [hparse]

/-- A simple valid decision text for the C8 witness. -/
def fxC8GoodBody : Str :=
  "\"status\": \"s\", \"priority\": \"p\", \"user_assignees\": [], \"crew_assignees\": [], \"labels\": [], \"comment\": \"c\", \"justification\": \"j\"".data ++ [rbrace]

/-- The decision `lbrace :: fxC8GoodBody` parses to. -/
def fxC8GoodDec : Json := Json.obj
  [("status".data, .str "s".data), ("priority".data, .str "p".data),
   ("user_assignees".data, .arr []), ("crew_assignees".data, .arr []),
   ("labels".data, .arr []), ("comment".data, .str "c".data),
   ("justification".data, .str "j".data)]

/-- Witness for the amended C8 at a concrete fence-free decision text. -/
theorem C8_witness :
    parseFinal (fenceWrap (lbrace :: fxC8GoodBody)) = some fxC8GoodDec ∧
    parseFinal (lbrace :: fxC8GoodBody) = some fxC8GoodDec :=
  C8_fenced_equals_raw fxC8GoodBody fxC8GoodDec rfl rfl rfl rfl

end Civitas
